import Mathlib

/-!
Verification of the streaming subsystem of the Roo-Code server:
the event transformer (`src/unnamed/part_002`, the sequence-returning
variant of `EventTransformer.ts`) and the `StreamingServer`
(`src/unnamed/part_001`).  JavaScript runtime values flowing through
`JSON.parse` and dynamic property access are modelled by `JVal`;
machine integers are modelled by `Nat`/`Int` (timestamps and ports are
small nonnegative integers, no overflow is possible on the observed
ranges); code that can throw is modelled with `Except String`.
-/

set_option maxRecDepth 10000

/-- JavaScript runtime value as produced by `JSON.parse` or written in an
object literal.  `undef` models the JavaScript `undefined` value (which can
appear through missing-property access and object literals, but is never
produced by `JSON.parse`). -/
inductive JVal where
  | undefVal : JVal
  | null : JVal
  | bool (b : Bool) : JVal
  | num (n : Int) : JVal
  | str (s : String) : JVal
  | arr (elems : List JVal) : JVal
  | obj (fields : List (String × JVal)) : JVal

/-- Dynamic property read `v[k]`: yields the last binding of the key (the
binding JavaScript keeps for duplicate keys), and `undefined` on a
non-object or a missing key. -/
def jget (v : JVal) (k : String) : JVal :=
  match v with
  | .obj fs => ((fs.reverse.find? (fun p => p.1 == k)).map (fun p => p.2)).getD .undefVal
  | _ => .undefVal

/-- Rest-pattern of an object destructuring (`const { a, b, ...rest } = v`):
the object without the named keys; the rest of a non-object is `{}`. -/
def jrest (v : JVal) (ks : List String) : JVal :=
  match v with
  | .obj fs => .obj (fs.filter (fun p => !(ks.contains p.1)))
  | _ => .obj []

/-- JavaScript truthiness of an optional boolean property. -/
def truthyB : Option Bool → Bool
  | none => false
  | some b => b

/-- JavaScript truthiness of an optional string property (`undefined` and
`""` are falsy). -/
def truthyS : Option String → Bool
  | none => false
  | some s => !s.isEmpty

/-- The JavaScript idiom `t || d` on an optional string. -/
def orS (t : Option String) (d : String) : String :=
  match t with
  | none => d
  | some s => if s.isEmpty then d else s

/-- Template rendering of a possibly-undefined string. -/
def jsShow : Option String → String
  | none => "undefined"
  | some s => s

/-- A raw optional string placed in an object literal. -/
def jstrOpt : Option String → JVal
  | none => .undefVal
  | some s => .str s

/-- The JavaScript idiom `t || null` on an optional string. -/
def jOrNull : Option String → JVal
  | none => .null
  | some s => if s.isEmpty then .null else .str s

/-! ### A model of `JSON.parse`

Parses the JSON fragment exercised by the code under verification:
objects, arrays, strings with the single-character escapes, integer
numbers, and the three literals.  Failure models the `SyntaxError`
thrown by `JSON.parse`. -/

/-- Drop leading JSON whitespace. -/
def skipWs : List Char → List Char
  | [] => []
  | c :: cs => if c = ' ' ∨ c = '\n' ∨ c = '\t' ∨ c = '\r' then skipWs cs else c :: cs

/-- Decode a single-character string escape. -/
def escChar (c : Char) : Option Char :=
  if c = '"' then some '"'
  else if c = '\\' then some '\\'
  else if c = '/' then some '/'
  else if c = 'n' then some '\n'
  else if c = 't' then some '\t'
  else if c = 'r' then some '\r'
  else if c = 'b' then some (Char.ofNat 8)
  else if c = 'f' then some (Char.ofNat 12)
  else none

/-- Scan the body of a string literal (the opening quote already
consumed), returning the decoded string and the remaining input; `esc`
records a pending backslash. -/
def parseStrAux (esc : Bool) (acc : List Char) : List Char → Except String (String × List Char)
  | [] => .error "Unterminated string"
  | c :: cs =>
    if esc then
      match escChar c with
      | some ec => parseStrAux false (ec :: acc) cs
      | none => .error "Bad escape"
    else if c = '"' then .ok (String.mk acc.reverse, cs)
    else if c = '\\' then parseStrAux true acc cs
    else parseStrAux false (c :: acc) cs

/-- Accumulate a run of decimal digits. -/
def digitsVal (acc : Nat) : List Char → Nat × List Char
  | [] => (acc, [])
  | c :: cs => if c.isDigit then digitsVal (acc * 10 + (c.toNat - 48)) cs else (acc, c :: cs)

/-- Parse an (integer) JSON number. -/
def parseNum : List Char → Except String (Int × List Char)
  | [] => .error "Expected number"
  | c :: cs =>
    if c = '-' then
      match cs with
      | [] => .error "Expected digit"
      | d :: _ =>
        if d.isDigit then
          let p := digitsVal 0 cs
          .ok (-(p.1 : Int), p.2)
        else .error "Expected digit"
    else if c.isDigit then
      let p := digitsVal 0 (c :: cs)
      .ok ((p.1 : Int), p.2)
    else .error "Expected number"

mutual

/-- Parse one JSON value; `fuel` bounds the nesting depth (chosen at the
top level as the input length, which every nesting step strictly
consumes). -/
def parseVal : Nat → List Char → Except String (JVal × List Char)
  | 0, _ => .error "Input too deep"
  | fuel + 1, cs =>
    match skipWs cs with
    | [] => .error "Unexpected end of input"
    | c :: cs1 =>
      if c = '"' then (parseStrAux false [] cs1).map (fun p => (.str p.1, p.2))
      else if c = '{' then
        match skipWs cs1 with
        | '}' :: cs2 => .ok (.obj [], cs2)
        | cs2 => parseFields fuel cs2 []
      else if c = '[' then
        match skipWs cs1 with
        | ']' :: cs2 => .ok (.arr [], cs2)
        | cs2 => parseItems fuel cs2 []
      else if c = 't' then
        if cs1.take 3 = ['r', 'u', 'e'] then .ok (.bool true, cs1.drop 3)
        else .error "Unexpected token"
      else if c = 'f' then
        if cs1.take 4 = ['a', 'l', 's', 'e'] then .ok (.bool false, cs1.drop 4)
        else .error "Unexpected token"
      else if c = 'n' then
        if cs1.take 3 = ['u', 'l', 'l'] then .ok (.null, cs1.drop 3)
        else .error "Unexpected token"
      else (parseNum (c :: cs1)).map (fun p => (.num p.1, p.2))

/-- Parse the members of an object (after the opening brace). -/
def parseFields : Nat → List Char → List (String × JVal) → Except String (JVal × List Char)
  | 0, _, _ => .error "Input too deep"
  | fuel + 1, cs, acc =>
    match skipWs cs with
    | '"' :: cs1 =>
      match parseStrAux false [] cs1 with
      | .error e => .error e
      | .ok (k, cs2) =>
        match skipWs cs2 with
        | ':' :: cs3 =>
          match parseVal fuel cs3 with
          | .error e => .error e
          | .ok (v, cs4) =>
            match skipWs cs4 with
            | ',' :: cs5 => parseFields fuel cs5 (acc ++ [(k, v)])
            | '}' :: cs5 => .ok (.obj (acc ++ [(k, v)]), cs5)
            | _ => .error "Expected comma or closing brace"
        | _ => .error "Expected colon"
    | _ => .error "Expected string key"

/-- Parse the elements of an array (after the opening bracket). -/
def parseItems : Nat → List Char → List JVal → Except String (JVal × List Char)
  | 0, _, _ => .error "Input too deep"
  | fuel + 1, cs, acc =>
    match parseVal fuel cs with
    | .error e => .error e
    | .ok (v, cs1) =>
      match skipWs cs1 with
      | ',' :: cs2 => parseItems fuel cs2 (acc ++ [v])
      | ']' :: cs2 => .ok (.arr (acc ++ [v]), cs2)
      | _ => .error "Expected comma or closing bracket"

end

/-- Model of `JSON.parse`: parse a complete value, requiring only
whitespace to remain. -/
def parseJson (s : String) : Except String JVal :=
  match parseVal (s.length + 1) s.data with
  | .error e => .error e
  | .ok (v, rest) =>
    match skipWs rest with
    | [] => .ok v
    | _ => .error "Unexpected trailing characters"

/-! ### Data model of the Event Transformer (`src/unnamed/part_002`)

The array-returning variant of `EventTransformer.ts`, whose
`transformMessageEvent` has type `StreamEvent[] | null`, carries the
guard on the message's streaming flag, and maps `ask` messages. -/

/-- A `functionCall` part of a Google GenAI `Content`.  `name` is a
dynamic value (the `tool` property of the parsed payload may be absent or
non-string). -/
structure FunctionCall where
  name : JVal
  args : JVal
  id : Option String := none

/-- A `functionResponse` part of a Google GenAI `Content`. -/
structure FunctionResponse where
  name : JVal
  response : JVal
  id : Option String := none

/-- A part of a Google GenAI `Content`: exactly one case populated.  The
`thought` flag of a text part models the optional boolean (absent =
`false`). -/
inductive ContentPart where
  | text (s : String) (thought : Bool) : ContentPart
  | functionCall (fc : FunctionCall) : ContentPart
  | functionResponse (fr : FunctionResponse) : ContentPart

/-- A Google GenAI `Content` envelope. -/
structure Content where
  role : String
  parts : List ContentPart := []

/-- The `data` payloads the transformer attaches to stream events: the
object literals `{say}`, `{ask}`, `{ask, message}`, `{error}`,
`{timestamp}` from the source. -/
inductive EventData where
  | sayData (say : Option String) : EventData
  | askData (ask : Option String) : EventData
  | askDataMsg (ask : Option String) (message : Option String) : EventData
  | errorData (error : String) : EventData
  | heartbeatData (timestamp : Nat) : EventData

/-- `TUsageMetadata` from the source. -/
structure TUsageMetadata where
  prompt_token_count : Nat
  candidates_token_count : Nat
  total_token_count : Nat

/-- `StreamEvent` from the source. -/
structure StreamEvent where
  event_id : String
  timestamp : Nat
  task_id : Option String := none
  content : Option Content := none
  type : Option String := none
  data : Option EventData := none
  usage_metadata : Option TUsageMetadata := none

/-- `ClineMessage`, restricted to the properties the transformer reads.
`partialFlag` models the message's optional `partial` boolean (the
streaming-in-progress flag); the source property name is a reserved
token here. -/
structure ClineMessage where
  ts : Nat
  type : String
  say : Option String := none
  ask : Option String := none
  text : Option String := none
  images : Option (List String) := none
  partialFlag : Option Bool := none
  reasoning : Option String := none

/-- The return shape of `messageToGenAIContent`: `{ content?, data? }`. -/
structure TransformOut where
  content : Option (List Content) := none
  data : Option EventData := none

/-- Truthiness of `message.images && message.images.length > 0`. -/
def imagesPresent : Option (List String) → Bool
  | none => false
  | some l => l.length > 0

/-- `EventTransformer.transformSayMessage` (`src/unnamed/part_002`,
lines 171-464).  The switch is rendered as its equality-dispatch
chain. -/
def transformSayMessage (msg : ClineMessage) : TransformOut :=
  if msg.say = some "api_req_started" ∨ msg.say = some "api_req_finished" ∨
      msg.say = some "api_req_retried" ∨ msg.say = some "api_req_retry_delayed" ∨
      msg.say = some "api_req_deleted" ∨ msg.say = some "shell_integration_warning" ∨
      msg.say = some "checkpoint_saved" ∨ msg.say = some "rooignore_error" ∨
      msg.say = some "diff_error" then {}
  else if msg.say = some "reasoning" then
    if truthyS msg.text then
      { content := some [{ role := "model", parts := [.text (msg.text.getD "") true] }]
        data := some (.sayData msg.say) }
    else {}
  else if msg.say = some "text" then
    if truthyS msg.text then
      { content := some [{ role := "model", parts := [.text (msg.text.getD "") false] }]
        data := some (.sayData msg.say) }
    else {}
  else if msg.say = some "command_output" then
    { content := some [{ role := "user"
                         parts := [.functionResponse
                           { name := .str "execute_command"
                             response := .obj [("output", jstrOpt msg.text)]
                             id := some (Nat.repr msg.ts) }] }]
      data := some (.sayData msg.say) }
  else if msg.say = some "browser_action" then
    { content := some [{ role := "model"
                         parts := [.functionCall
                           { name := .str "browser_action"
                             args := .obj ([("action", .str (orS msg.text "Browser action initiated"))] ++
                               (if imagesPresent msg.images then
                                 [("images", .arr ((msg.images.getD []).map .str))] else [])) }] }]
      data := some (.sayData msg.say) }
  else if msg.say = some "browser_action_result" then
    { content := some [{ role := "user"
                         parts := [.functionResponse
                           { name := .str "browser_action"
                             response := .obj ([("result", .str (orS msg.text ""))] ++
                               (if imagesPresent msg.images then
                                 [("screenshots", .arr ((msg.images.getD []).map .str))] else [])) }] }]
      data := some (.sayData msg.say) }
  else if msg.say = some "mcp_server_request_started" then
    { content := some [{ role := "model"
                         parts := [.functionCall
                           { name := .str "mcp_tool"
                             args := .obj [("status", .str "started"),
                               ("details", .str (orS msg.text "MCP server request initiated"))]
                             id := some (Nat.repr msg.ts) }] }]
      data := some (.sayData msg.say) }
  else if msg.say = some "mcp_server_response" then
    { content := some [{ role := "user"
                         parts := [.functionResponse
                           { name := .str "mcp_tool"
                             response := .obj [("result", .str (orS msg.text ""))]
                             id := some (Nat.repr msg.ts) }] }]
      data := some (.sayData msg.say) }
  else if msg.say = some "error" then
    { content := some [{ role := "user"
                         parts := [.text ("Error: " ++ orS msg.text "Unknown error") false] }]
      data := some (.sayData msg.say) }
  else if msg.say = some "completion_result" then
    { content := some [{ role := "model"
                         parts := [.text (orS msg.text "[completion_result]") false] }]
      data := some (.sayData msg.say) }
  else if msg.say = some "user_feedback" ∨ msg.say = some "user_feedback_diff" then
    if truthyS msg.text then
      { content := some [{ role := "user", parts := [.text (msg.text.getD "") false] }]
        data := some (.sayData msg.say) }
    else {}
  else if msg.say = some "codebase_search_result" then
    { content := some [{ role := "user"
                         parts := [.functionResponse
                           { name := .str "search_codebase"
                             response := .obj [("result", .str (orS msg.text "")),
                               ("reasoning", jOrNull msg.reasoning)]
                             id := some (Nat.repr msg.ts) }] }]
      data := some (.sayData msg.say) }
  else if msg.say = some "subtask_result" then
    { content := some [{ role := "user"
                         parts := [.functionResponse
                           { name := .str "complete_subtask"
                             response := .obj [("result", .str (orS msg.text ""))] }] }]
      data := some (.sayData msg.say) }
  else
    { content := some [{ role := "model"
                         parts := [.text (orS msg.text ("[" ++ jsShow msg.say ++ "]")) false] }]
      data := some (.sayData msg.say) }

/-- `EventTransformer.transformAskMessage` (`src/unnamed/part_002`,
lines 466-733).  The switch is rendered as its equality-dispatch
chain. -/
def transformAskMessage (msg : ClineMessage) : TransformOut :=
  if msg.ask = some "tool" then
    match msg.text with
    | some s =>
      if s.isEmpty then
        { content := some [{ role := "model", parts := [.text "[tool]" false] }]
          data := some (.askData msg.ask) }
      else
        match parseJson s with
        | .ok toolData =>
          match jget toolData "content" with
          | .undefVal =>
            { content := some [{ role := "model"
                                 parts := [.functionCall
                                   { name := jget toolData "tool"
                                     args := jrest toolData ["tool"]
                                     id := some (Nat.repr msg.ts) }] }]
              data := some (.askData msg.ask) }
          | _ =>
            { content := some [
                { role := "model"
                  parts := [.functionCall
                    { name := jget toolData "tool"
                      args := jrest toolData ["tool", "content"]
                      id := some (Nat.repr msg.ts) }] },
                { role := "user"
                  parts := [.functionResponse
                    { name := jget toolData "tool"
                      response := .obj [("content", jget toolData "content")]
                      id := some (Nat.repr msg.ts) }] }]
              data := some (.askData msg.ask) }
        | .error _ =>
          { content := some [{ role := "model"
                               parts := [.text (orS msg.text "[tool]") false] }] }
    | none =>
      { content := some [{ role := "model", parts := [.text "[tool]" false] }]
        data := some (.askData msg.ask) }
  else if msg.ask = some "followup" then
    { content := some [{ role := "model"
                         parts := [.text (orS msg.text "Follow-up question from agent") false] }]
      data := some (.askData msg.ask) }
  else if msg.ask = some "command" then
    { content := some [{ role := "model"
                         parts := [.text (orS msg.text "Permission request to execute command") false] }]
      data := some (.askData msg.ask) }
  else if msg.ask = some "resume_task" then
    { content := some [{ role := "model"
                         parts := [.text (orS msg.text "Resume task request") false] }]
      data := some (.askData msg.ask) }
  else if msg.ask = some "resume_completed_task" then
    { content := some [{ role := "model"
                         parts := [.text (orS msg.text "Resume completed task request") false] }]
      data := some (.askData msg.ask) }
  else if msg.ask = some "browser_action_launch" then
    { content := some [{ role := "model"
                         parts := [.text (orS msg.text "Browser action launch request") false] }]
      data := some (.askData msg.ask) }
  else if msg.ask = some "use_mcp_server" then
    { content := some [{ role := "model"
                         parts := [.text (orS msg.text "MCP server usage request") false] }]
      data := some (.askData msg.ask) }
  else if msg.ask = some "completion_result" then
    { content := some [{ role := "model"
                         parts := [.text (orS msg.text "Task completion result") false] }]
      data := some (.askData msg.ask) }
  else if msg.ask = some "command_output" then
    { content := some [{ role := "model"
                         parts := [.text (orS msg.text "Command execution output") false] }]
      data := some (.askData msg.ask) }
  else if msg.ask = some "api_req_failed" then
    { content := some [{ role := "model"
                         parts := [.text (orS msg.text "API request failed - user intervention needed") false] }]
      data := some (.askData msg.ask) }
  else if msg.ask = some "mistake_limit_reached" then
    { content := some [{ role := "model"
                         parts := [.text (orS msg.text "Mistake limit reached - user guidance needed") false] }]
      data := some (.askData msg.ask) }
  else if msg.ask = some "auto_approval_max_req_reached" then
    { content := some [{ role := "model"
                         parts := [.text (orS msg.text "Auto-approval limit reached - manual approval required") false] }]
      data := some (.askData msg.ask) }
  else
    { content := some [{ role := "model"
                         parts := [.text (orS msg.text ("[" ++ jsShow msg.ask ++ "]")) false] }]
      data := some (.askDataMsg msg.ask msg.text) }

/-- `EventTransformer.messageToGenAIContent` (`src/unnamed/part_002`,
lines 145-154). -/
def messageToGenAIContent (msg : ClineMessage) : TransformOut :=
  match msg.type with
  | "say" => transformSayMessage msg
  | "ask" => transformAskMessage msg
  | _ => {}

/-- Build one `"message"` stream event per content envelope, numbering
the generated event ids (`gen i` is the i-th fresh id of the call, `now`
is `Date.now()`). -/
def mkMessageEvents (gen : Nat → String) (now : Nat) (taskId : String)
    (d : Option EventData) (cs : List Content) : List StreamEvent :=
  cs.enum.map (fun p =>
    { type := some "message", content := some p.2, data := d, task_id := some taskId
      event_id := gen p.1, timestamp := now })

/-- The body of the `try` block of
`EventTransformer.transformMessageEvent` (`src/unnamed/part_002`,
lines 34-53); an `Except.error` models an exception escaping the block. -/
def transformMessageEventBody (gen : Nat → String) (now : Nat) (taskId : String)
    (msg : ClineMessage) : Except String (Option (List StreamEvent)) :=
  if truthyB msg.partialFlag then .ok none
  else
    let r := messageToGenAIContent msg
    if (r.content.getD []).isEmpty && r.data.isNone then .ok none
    else
      match r.content with
      | none => .ok none
      | some cs => .ok (some (mkMessageEvents gen now taskId r.data cs))

/-- The single `"error"` stream event built by the `catch` branch of
`transformMessageEvent`. -/
def transformErrorEvent (gen : Nat → String) (now : Nat) (taskId : String)
    (e : String) : StreamEvent :=
  { type := some "error", task_id := some taskId, event_id := gen 0, timestamp := now
    data := some (.errorData ("Error transforming message: " ++ e)) }

/-- `EventTransformer.transformMessageEvent` (`src/unnamed/part_002`,
lines 33-68): the guarded body with its catch-all converting any escaped
exception into a single `"error"` event. -/
def transformMessageEvent (gen : Nat → String) (now : Nat) (taskId : String)
    (msg : ClineMessage) : Option (List StreamEvent) :=
  match transformMessageEventBody gen now taskId msg with
  | .ok r => r
  | .error e => some [transformErrorEvent gen now taskId e]

/-- The `say` categories handled by a named arm of
`transformSayMessage`'s switch. -/
def handledSays : List String :=
  ["api_req_started", "api_req_finished", "api_req_retried", "api_req_retry_delayed",
   "api_req_deleted", "shell_integration_warning", "checkpoint_saved", "rooignore_error",
   "diff_error", "reasoning", "text", "command_output", "browser_action",
   "browser_action_result", "mcp_server_request_started", "mcp_server_response",
   "error", "completion_result", "user_feedback", "user_feedback_diff",
   "codebase_search_result", "subtask_result"]

/-- The `say` categories that are silently dropped (mapped to `{}`). -/
def droppedSays : List String :=
  ["api_req_started", "api_req_finished", "api_req_retried", "api_req_retry_delayed",
   "api_req_deleted", "shell_integration_warning", "checkpoint_saved", "rooignore_error",
   "diff_error"]

/-- The `ask` categories handled by a named arm of
`transformAskMessage`'s switch. -/
def handledAsks : List String :=
  ["tool", "followup", "command", "resume_task", "resume_completed_task",
   "browser_action_launch", "use_mcp_server", "completion_result", "command_output",
   "api_req_failed", "mistake_limit_reached", "auto_approval_max_req_reached"]

/-- Substring test used to express "the content includes a bracketed tag". -/
def strContains (h sub : String) : Bool :=
  h.data.tails.any (fun t => sub.data.isPrefixOf t)

/-! ### Data model of the Streaming Server (`src/unnamed/part_001`)

State owned by one `StreamingServer` instance, with the transport
abstracted: a websocket is its ready state plus whether a `send` on it
throws; frames written to clients are observed as a log of
`(connectionId, frame)` pairs. -/

/-- `portRange` of the configuration. -/
structure PortRange where
  min : Nat
  max : Nat
deriving DecidableEq

/-- `StreamingServerConfig` from the source. -/
structure StreamingServerConfig where
  enabled : Bool
  port : Nat
  portRange : Option PortRange
  logging : Bool
  loggingLevel : String
  connectionTimeout : Nat
  heartbeatInterval : Nat
deriving DecidableEq

/-- `DEFAULT_CONFIG` from the source. -/
def DEFAULT_CONFIG : StreamingServerConfig :=
  { enabled := true
    port := 3001
    portRange := some { min := 3001, max := 3100 }
    logging := false
    loggingLevel := "info"
    connectionTimeout := 60000
    heartbeatInterval := 30000 }

/-- `Partial<StreamingServerConfig>`: a field is `some` exactly when the
override object carries the key. -/
structure PartialStreamingServerConfig where
  enabled : Option Bool := none
  port : Option Nat := none
  portRange : Option (Option PortRange) := none
  logging : Option Bool := none
  loggingLevel : Option String := none
  connectionTimeout : Option Nat := none
  heartbeatInterval : Option Nat := none
deriving DecidableEq

/-- The object spread `{ ...c, ...p }` merging a partial override into a
configuration. -/
def mergeConfig (c : StreamingServerConfig) (p : PartialStreamingServerConfig) :
    StreamingServerConfig :=
  { enabled := p.enabled.getD c.enabled
    port := p.port.getD c.port
    portRange := p.portRange.getD c.portRange
    logging := p.logging.getD c.logging
    loggingLevel := p.loggingLevel.getD c.loggingLevel
    connectionTimeout := p.connectionTimeout.getD c.connectionTimeout
    heartbeatInterval := p.heartbeatInterval.getD c.heartbeatInterval }

/-- The transport handle of a client websocket: its ready state and
whether a write on it throws. -/
structure WS where
  readyState : Nat
  sendThrows : Bool
deriving DecidableEq

/-- `WebSocket.OPEN` of the `ws` library. -/
def wsOPEN : Nat := 1

/-- `StreamClientConnection` from the source. -/
structure StreamClientConnection where
  id : String
  connectedAt : Nat
  websocket : Option WS := none
deriving DecidableEq

/-- An outbound wire frame: a broadcast stream event, a
`taskCommandAck`, or an `error` frame. -/
inductive OutFrame where
  | ev (e : StreamEvent) : OutFrame
  | ack (commandName : JVal) (timestamp : Nat) : OutFrame
  | err (message : String) (timestamp : Nat) : OutFrame

/-- The task-command handler callback supplied by the host; an
`Except.error` models a rejected promise, carrying the error message. -/
def TaskCommandHandler : Type := JVal → JVal → Except String Unit

/-- The mutable state of one `StreamingServer` instance.  `connections`
models the insertion-ordered `Map` of the source; `heartbeatActive`
models whether the heartbeat interval timer is set and uncancelled;
`listening` is the bound port once the listener is up. -/
structure ServerState where
  config : StreamingServerConfig
  connections : List (String × StreamClientConnection)
  heartbeatActive : Bool
  listening : Option Nat
  taskCommandHandler : Option TaskCommandHandler

/-- The `StreamingServer` constructor (`src/unnamed/part_001`,
lines 79-88): merges the configuration and calls `setupHeartbeat`,
which sets the interval timer immediately. -/
def mkStreamingServer (cfg : PartialStreamingServerConfig) : ServerState :=
  { config := mergeConfig DEFAULT_CONFIG cfg
    connections := []
    heartbeatActive := true
    listening := none
    taskCommandHandler := none }

/-- `StreamingServer.setTaskCommandHandler`. -/
def setTaskCommandHandler (st : ServerState) (h : TaskCommandHandler) : ServerState :=
  { st with taskCommandHandler := some h }

/-- `StreamingServer.updateConfig` (`src/unnamed/part_001`,
lines 357-360): `this.config = { ...this.config, ...newConfig }`. -/
def updateConfig (st : ServerState) (newConfig : PartialStreamingServerConfig) : ServerState :=
  { st with config := mergeConfig st.config newConfig }

/-! #### Port acquisition (`start`) -/

/-- Outcome of one `server.listen(port)` attempt, as observed through the
`listening`/`error` events: success, `EADDRINUSE`, or another error. -/
inductive BindResult where
  | listening : BindResult
  | addrInUse : BindResult
  | otherErr (e : String) : BindResult
deriving DecidableEq

/-- Result of `start()`: resolution with the bound port, rejection with
the port-exhaustion error (`No available ports found. Last attempted:
p`), or rejection with a non-conflict bind error. -/
inductive StartOutcome where
  | ok (boundPort : Nat) : StartOutcome
  | noPortsErr (lastAttempted : Nat) : StartOutcome
  | err (e : String) : StartOutcome
deriving DecidableEq

/-- The `tryPort` recursion of `StreamingServer.start`
(`src/unnamed/part_001`, lines 275-308) for a configured port range:
on `EADDRINUSE` retry the next port while below the range maximum. -/
def tryPort (env : Nat → BindResult) (r : PortRange) (p : Nat) : StartOutcome :=
  match env p with
  | .listening => .ok p
  | .addrInUse => if _h : p < r.max then tryPort env r (p + 1) else .noPortsErr p
  | .otherErr e => .err e
termination_by r.max - p
decreasing_by omega

/-- One `server.listen` attempt when no port range is configured: a
conflict immediately rejects with the port-exhaustion error. -/
def tryPortNoRange (env : Nat → BindResult) (p : Nat) : StartOutcome :=
  match env p with
  | .listening => .ok p
  | .addrInUse => .noPortsErr p
  | .otherErr e => .err e

/-- `StreamingServer.start` (`src/unnamed/part_001`, lines 271-312):
run the port probing from the preferred port; on success record the
actually bound port in the configuration and enter the listening
state. -/
def start (env : Nat → BindResult) (st : ServerState) : ServerState × StartOutcome :=
  let outcome :=
    match st.config.portRange with
    | some r => tryPort env r st.config.port
    | none => tryPortNoRange env st.config.port
  match outcome with
  | .ok p => ({ st with config := { st.config with port := p }, listening := some p }, .ok p)
  | o => (st, o)

/-! #### Broadcast, per-connection sends, inbound commands -/

/-- `StreamingServer.sendToWebSocketClient` (`src/unnamed/part_001`,
lines 248-252): write only when the socket is `OPEN`; the returned list
is the frames actually written, an `Except.error` models a throwing
`ws.send`. -/
def sendToWebSocketClient (ws : WS) (f : OutFrame) : Except String (List OutFrame) :=
  if ws.readyState = wsOPEN then
    if ws.sendThrows then .error "send failed" else .ok [f]
  else .ok []

/-- The body of the broadcast loop of `StreamingServer.broadcastEvent`
(`src/unnamed/part_001`, lines 230-243): iterate a snapshot of the
connection entries, write to each socket, and on a throwing write delete
that connection from the registry.  Returns the frame log and the final
registry. -/
def broadcastLoop (ev : StreamEvent) :
    List (String × StreamClientConnection) → List (String × StreamClientConnection) →
    List (String × OutFrame) × List (String × StreamClientConnection)
  | reg, [] => ([], reg)
  | reg, (cid, conn) :: rest =>
    match conn.websocket with
    | none => broadcastLoop ev reg rest
    | some ws =>
      match sendToWebSocketClient ws (.ev ev) with
      | .ok fs =>
        let (fs', reg') := broadcastLoop ev reg rest
        (fs.map (fun f => (cid, f)) ++ fs', reg')
      | .error _ => broadcastLoop ev (reg.eraseP (fun p => p.1 == cid)) rest

/-- `StreamingServer.broadcastEvent`: run the loop over a snapshot of the
current registry. -/
def broadcastEvent (st : ServerState) (ev : StreamEvent) :
    ServerState × List (String × OutFrame) :=
  let (fs, reg) := broadcastLoop ev st.connections st.connections
  ({ st with connections := reg }, fs)

/-- `Map.get(connectionId)` on the registry. -/
def connGet (st : ServerState) (connId : String) : Option StreamClientConnection :=
  (st.connections.find? (fun p => p.1 == connId)).map (fun p => p.2)

/-- `StreamingServer.sendAckToClient` (`src/unnamed/part_001`,
lines 200-210). -/
def sendAckToClient (st : ServerState) (connId : String) (commandName : JVal)
    (now : Nat) : Except String (List (String × OutFrame)) :=
  match connGet st connId with
  | some conn =>
    match conn.websocket with
    | some ws => (sendToWebSocketClient ws (.ack commandName now)).map
        (fun fs => fs.map (fun f => (connId, f)))
    | none => .ok []
  | none => .ok []

/-- `StreamingServer.sendErrorToClient` (`src/unnamed/part_001`,
lines 215-225). -/
def sendErrorToClient (st : ServerState) (connId : String) (error : String)
    (now : Nat) : Except String (List (String × OutFrame)) :=
  match connGet st connId with
  | some conn =>
    match conn.websocket with
    | some ws => (sendToWebSocketClient ws (.err error now)).map
        (fun fs => fs.map (fun f => (connId, f)))
    | none => .ok []
  | none => .ok []

/-- `StreamingServer.handleTaskCommand` (`src/unnamed/part_001`,
lines 173-195): without a registered handler, send an error frame; with
one, await it and acknowledge, converting a rejection (of the handler or
of the acknowledgment write) into an error frame to the originating
connection.  The result is the log of frames written; an `Except.error`
models a rejection escaping the function. -/
def handleTaskCommand (st : ServerState) (connId : String)
    (commandName data : JVal) (now : Nat) : Except String (List (String × OutFrame)) :=
  match st.taskCommandHandler with
  | none => sendErrorToClient st connId "Task command handler not available" now
  | some handler =>
    match handler commandName data with
    | .ok _ =>
      match sendAckToClient st connId commandName now with
      | .ok fs => .ok fs
      | .error e => sendErrorToClient st connId ("Failed to process command: " ++ e) now
    | .error e => sendErrorToClient st connId ("Failed to process command: " ++ e) now

/-- `StreamingServer.handleClientMessage` (`src/unnamed/part_001`,
lines 158-168): dispatch on `message.type`; unknown kinds are logged and
ignored. -/
def handleClientMessage (st : ServerState) (connId : String) (msg : JVal)
    (now : Nat) : Except String (List (String × OutFrame)) :=
  match jget msg "type" with
  | .str "taskCommand" => handleTaskCommand st connId (jget msg "commandName") (jget msg "data") now
  | _ => .ok []

/-- The websocket `message` listener (`src/unnamed/part_001`,
lines 115-122): `JSON.parse` inside `try`, a parse failure is logged and
dropped. -/
def onWsMessage (st : ServerState) (connId : String) (raw : String)
    (now : Nat) : Except String (List (String × OutFrame)) :=
  match parseJson raw with
  | .ok m => handleClientMessage st connId m now
  | .error _ => .ok []

/-! #### Heartbeat and shutdown -/

/-- The `"heartbeat"` stream event synthesized by `setupHeartbeat`
(`src/unnamed/part_001`, lines 142-153). -/
def heartbeatEvent (gen : Nat → String) (now : Nat) : StreamEvent :=
  { event_id := gen 0, type := some "heartbeat", timestamp := now
    data := some (.heartbeatData now) }

/-- One firing of the heartbeat interval timer: while the timer is
active, broadcast a heartbeat event (the returned flag records that a
heartbeat broadcast occurred). -/
def heartbeatTick (gen : Nat → String) (now : Nat) (st : ServerState) :
    ServerState × List (String × OutFrame) × Bool :=
  if st.heartbeatActive then
    let (st', fs) := broadcastEvent st (heartbeatEvent gen now)
    (st', fs, true)
  else (st, [], false)

/-- `StreamingServer.stop` (`src/unnamed/part_001`, lines 317-342):
cancel the heartbeat timer, close every connection, clear the registry,
close the listener. -/
def stop (st : ServerState) : ServerState :=
  { st with heartbeatActive := false, connections := [], listening := none }


/-- A single `"message"` stream event whose content is one model-role
text part (the shape of both default-case fallbacks). -/
def fallbackTextEvent (gen : Nat → String) (now : Nat) (taskId : String)
    (txt : String) (d : EventData) : StreamEvent :=
  { event_id := gen 0, timestamp := now, task_id := some taskId
    content := some { role := "model", parts := [.text txt false] }
    type := some "message", data := some d }


/-- The correlation id of a part (the `id` of a `functionCall` or
`functionResponse`). -/
def partCorrelationId : ContentPart → Option String
  | .functionCall fc => fc.id
  | .functionResponse fr => fr.id
  | .text _ _ => none

/-- The correlation ids of the parts of each event of a transformation
result. -/
def eventCorrelationIds (l : List StreamEvent) : List (List (Option String)) :=
  l.map (fun e => ((e.content.map Content.parts).getD []).map partCorrelationId)

/-- The `functionCall`/`functionResponse` event pair produced from a
`tool`-category ask message whose parsed payload `td` carries inline
`content`. -/
def toolPairEvents (gen : Nat → String) (now : Nat) (taskId : String)
    (ts : Nat) (td : JVal) : List StreamEvent :=
  [{ event_id := gen 0, timestamp := now, task_id := some taskId
     content := some { role := "model"
                       parts := [.functionCall { name := jget td "tool"
                                                 args := jrest td ["tool", "content"]
                                                 id := some (Nat.repr ts) }] }
     type := some "message", data := some (.askData (some "tool")) },
   { event_id := gen 1, timestamp := now, task_id := some taskId
     content := some { role := "user"
                       parts := [.functionResponse { name := jget td "tool"
                                                     response := .obj [("content", jget td "content")]
                                                     id := some (Nat.repr ts) }] }
     type := some "message", data := some (.askData (some "tool")) }]

/-- A connection whose transport write succeeds: an `OPEN`, non-throwing
websocket. -/
def okOpen (c : StreamClientConnection) : Prop :=
  ∃ w, c.websocket = some w ∧ w.readyState = wsOPEN ∧ w.sendThrows = false

/-- A connection the write path never touches: no websocket, or one that
is not `OPEN` (so `ws.send` is never called). -/
def silentConn (c : StreamClientConnection) : Prop :=
  c.websocket = none ∨ ∃ w, c.websocket = some w ∧ w.readyState ≠ wsOPEN

/-! ### Concrete inputs used by witnesses and counterexamples -/

/-- Bind environment with the preferred ports busy and 3003 free. -/
def envFirstFree : Nat → BindResult := fun p => if p = 3003 then .listening else .addrInUse

/-- Bind environment with every port busy. -/
def envAllBusy : Nat → BindResult := fun _ => .addrInUse

/-- Bind environment failing with a non-conflict error at 3002. -/
def envAccessDenied : Nat → BindResult :=
  fun p => if p = 3002 then .otherErr "EACCES" else .addrInUse

/-- A freshly constructed server with the default configuration. -/
def serverW : ServerState := mkStreamingServer {}

/-- An `OPEN`, healthy websocket. -/
def wsOpenOk : WS := { readyState := 1, sendThrows := false }

/-- An `OPEN` websocket whose writes throw. -/
def wsOpenBad : WS := { readyState := 1, sendThrows := true }

/-- A closed websocket. -/
def wsClosed : WS := { readyState := 3, sendThrows := false }

/-- Healthy connection records. -/
def connRec1 : StreamClientConnection := { id := "c1", connectedAt := 0, websocket := some wsOpenOk }

/-- A connection whose writes throw. -/
def connRecK : StreamClientConnection := { id := "c2", connectedAt := 0, websocket := some wsOpenBad }

/-- A second healthy connection record. -/
def connRec3 : StreamClientConnection := { id := "c3", connectedAt := 0, websocket := some wsOpenOk }

/-- A half-dead connection record (not `OPEN`). -/
def connRecD : StreamClientConnection := { id := "c4", connectedAt := 0, websocket := some wsClosed }

/-- A server with three registered connections, the middle one
throwing. -/
def stBroadcast : ServerState :=
  { config := DEFAULT_CONFIG
    connections := [("c1", connRec1), ("c2", connRecK), ("c3", connRec3)]
    heartbeatActive := true, listening := some 3001, taskCommandHandler := none }

/-- A server with a healthy and a half-dead connection. -/
def stHalfDead : ServerState :=
  { config := DEFAULT_CONFIG
    connections := [("c1", connRec1), ("c4", connRecD)]
    heartbeatActive := true, listening := some 3001, taskCommandHandler := none }

/-- A concrete stream event to broadcast. -/
def evW : StreamEvent := { event_id := "e1", timestamp := 10, type := some "message" }

/-- A handler that succeeds. -/
def okHandler : TaskCommandHandler := fun _ _ => .ok ()

/-- A handler that rejects. -/
def failHandler : TaskCommandHandler := fun _ _ => .error "boom"

/-- A server with two healthy connections and no command handler. -/
def stCmdNone : ServerState :=
  { config := DEFAULT_CONFIG
    connections := [("c1", connRec1), ("c3", connRec3)]
    heartbeatActive := true, listening := some 3001, taskCommandHandler := none }

/-- The same server with a succeeding handler. -/
def stCmdOk : ServerState := { stCmdNone with taskCommandHandler := some okHandler }

/-- The same server with a rejecting handler. -/
def stCmdFail : ServerState := { stCmdNone with taskCommandHandler := some failHandler }

/-- A well-formed inbound `taskCommand` frame. -/
def cmdMsg : JVal :=
  .obj [("type", .str "taskCommand"), ("commandName", .str "StartNewTask"), ("data", .null)]

/-- An event-id generator for concrete runs. -/
def genA : Nat → String := fun n => "a-" ++ Nat.repr n

/-- A second, different event-id generator for concrete runs. -/
def genB : Nat → String := fun n => "b-" ++ Nat.repr n

/-! ### Theorems -/

/-- C1: for every task id and message, `transformMessageEvent` never
propagates an exception: it either returns the normal result of its
guarded body, or returns a single stream event of type `"error"` whose
data carries the failure description. -/
theorem transformMessageEvent_no_exception (gen : Nat → String) (now : Nat)
    (taskId : String) (msg : ClineMessage) :
    (∃ r, transformMessageEventBody gen now taskId msg = .ok r ∧
      transformMessageEvent gen now taskId msg = r) ∨
    (∃ e, transformMessageEvent gen now taskId msg =
        some [transformErrorEvent gen now taskId e] ∧
      (transformErrorEvent gen now taskId e).type = some "error" ∧
      (transformErrorEvent gen now taskId e).data =
        some (.errorData ("Error transforming message: " ++ e))) := by
  cases h : transformMessageEventBody gen now taskId msg with
  | ok r => exact Or.inl ⟨r, rfl, by simp [transformMessageEvent, h]⟩
  | error e => exact Or.inr ⟨e, by simp [transformMessageEvent, h], rfl, rfl⟩

/-- C2: every message whose streaming flag is truthy yields an empty
result from `transformMessageEvent`. -/
theorem transformMessageEvent_partial_empty (gen : Nat → String) (now : Nat)
    (taskId : String) (msg : ClineMessage)
    (h : truthyB msg.partialFlag = true) :
    transformMessageEvent gen now taskId msg = none := by
  simp [transformMessageEvent, transformMessageEventBody, h]

/-- Witness for C2 at a concrete message flagged as streaming. -/
theorem transformMessageEvent_partial_empty_witness :
    truthyB (some true) = true ∧
    transformMessageEvent genA 0 "task"
      { ts := 5, type := "say", say := some "text", text := some "hi",
        partialFlag := some true } = none :=
  ⟨rfl, transformMessageEvent_partial_empty genA 0 "task"
    { ts := 5, type := "say", say := some "text", text := some "hi",
      partialFlag := some true } rfl⟩

/-- C9: `updateConfig` merges the given fields into the live
configuration and changes nothing else — the registry, the heartbeat
timer, the listener binding, and the command handler are untouched, and
each configuration field takes the override when present and is
preserved otherwise. -/
theorem updateConfig_frame (st : ServerState) (nc : PartialStreamingServerConfig) :
    (updateConfig st nc).connections = st.connections ∧
    (updateConfig st nc).heartbeatActive = st.heartbeatActive ∧
    (updateConfig st nc).listening = st.listening ∧
    (updateConfig st nc).taskCommandHandler = st.taskCommandHandler ∧
    (updateConfig st nc).config.enabled = nc.enabled.getD st.config.enabled ∧
    (updateConfig st nc).config.port = nc.port.getD st.config.port ∧
    (updateConfig st nc).config.portRange = nc.portRange.getD st.config.portRange ∧
    (updateConfig st nc).config.logging = nc.logging.getD st.config.logging ∧
    (updateConfig st nc).config.loggingLevel = nc.loggingLevel.getD st.config.loggingLevel ∧
    (updateConfig st nc).config.connectionTimeout =
      nc.connectionTimeout.getD st.config.connectionTimeout ∧
    (updateConfig st nc).config.heartbeatInterval =
      nc.heartbeatInterval.getD st.config.heartbeatInterval :=
  ⟨rfl, rfl, rfl, rfl, rfl, rfl, rfl, rfl, rfl, rfl, rfl⟩

/-- C6 (amended): every finalized message in the silently-dropped
category set yields an empty result; every finalized message whose
category is in neither category table yields exactly one `text` part
whose content is the message text when truthy, and otherwise a bracketed
tag of the category name. -/
theorem transform_category_tables :
    (∀ (gen : Nat → String) (now : Nat) (taskId : String) (msg : ClineMessage) (s : String),
      truthyB msg.partialFlag = false → msg.type = "say" → msg.say = some s →
      s ∈ droppedSays → transformMessageEvent gen now taskId msg = none) ∧
    (∀ (gen : Nat → String) (now : Nat) (taskId : String) (msg : ClineMessage) (s : String),
      truthyB msg.partialFlag = false → msg.type = "say" → msg.say = some s →
      s ∉ handledSays →
      transformMessageEvent gen now taskId msg =
        some [fallbackTextEvent gen now taskId (orS msg.text ("[" ++ s ++ "]"))
          (.sayData (some s))]) ∧
    (∀ (gen : Nat → String) (now : Nat) (taskId : String) (msg : ClineMessage) (s : String),
      truthyB msg.partialFlag = false → msg.type = "ask" → msg.ask = some s →
      s ∉ handledAsks →
      transformMessageEvent gen now taskId msg =
        some [fallbackTextEvent gen now taskId (orS msg.text ("[" ++ s ++ "]"))
          (.askDataMsg (some s) msg.text)]) := by
  refine ⟨?_, ?_, ?_⟩
  · intro gen now taskId msg s hp hty hsay hmem
    have hout : transformSayMessage msg = {} := by
      simp only [droppedSays, List.mem_cons, List.not_mem_nil, or_false] at hmem
      unfold transformSayMessage
      rw [hsay]
      rcases hmem with h | h | h | h | h | h | h | h | h <;> subst h <;> simp
    simp [transformMessageEvent, transformMessageEventBody, messageToGenAIContent, hty, hout, hp]
  · intro gen now taskId msg s hp hty hsay hmem
    simp only [handledSays, List.mem_cons, List.not_mem_nil, or_false, not_or] at hmem
    obtain ⟨h1, h2, h3, h4, h5, h6, h7, h8, h9, h10, h11, h12, h13, h14, h15, h16, h17, h18,
      h19, h20, h21, h22⟩ := hmem
    have hout : transformSayMessage msg =
        { content := some [{ role := "model"
                             parts := [.text (orS msg.text ("[" ++ s ++ "]")) false] }]
          data := some (.sayData (some s)) } := by
      unfold transformSayMessage
      rw [hsay]
      simp [h1, h2, h3, h4, h5, h6, h7, h8, h9, h10, h11, h12, h13, h14, h15, h16, h17, h18,
        h19, h20, h21, h22, jsShow]
    simp [transformMessageEvent, transformMessageEventBody, messageToGenAIContent, hty, hout, hp,
      mkMessageEvents, fallbackTextEvent]
  · intro gen now taskId msg s hp hty hask hmem
    simp only [handledAsks, List.mem_cons, List.not_mem_nil, or_false, not_or] at hmem
    obtain ⟨k1, k2, k3, k4, k5, k6, k7, k8, k9, k10, k11, k12⟩ := hmem
    have hout : transformAskMessage msg =
        { content := some [{ role := "model"
                             parts := [.text (orS msg.text ("[" ++ s ++ "]")) false] }]
          data := some (.askDataMsg (some s) msg.text) } := by
      unfold transformAskMessage
      rw [hask]
      simp [k1, k2, k3, k4, k5, k6, k7, k8, k9, k10, k11, k12, jsShow]
    simp [transformMessageEvent, transformMessageEventBody, messageToGenAIContent, hty, hout, hp,
      mkMessageEvents, fallbackTextEvent]

/-- C6 counterexample: a finalized message of a say category present in
neither category table, carrying text, yields a single text part equal
to the message text alone — the content does not include the bracketed
category tag the claim requires. -/
theorem transform_unknown_category_counterexample :
    transformMessageEvent genA 0 "task"
      { ts := 1, type := "say", say := some "my_custom_say", text := some "hello" } =
      some [fallbackTextEvent genA 0 "task" "hello" (.sayData (some "my_custom_say"))] ∧
    handledSays.contains "my_custom_say" = false ∧
    handledAsks.contains "my_custom_say" = false ∧
    strContains "hello" "[my_custom_say]" = false :=
  ⟨rfl, rfl, rfl, rfl⟩

/-- Witness for C6 at concrete messages: a dropped category, an unknown
say category determining the bracketed-tag fallback, and an unknown ask
category. -/
theorem transform_category_tables_witness :
    (droppedSays.contains "checkpoint_saved" = true ∧
      transformMessageEvent genA 3 "t"
        { ts := 2, type := "say", say := some "checkpoint_saved" } = none) ∧
    (handledSays.contains "brand_new_say" = false ∧
      transformMessageEvent genA 3 "t"
        { ts := 2, type := "say", say := some "brand_new_say" } =
        some [fallbackTextEvent genA 3 "t" "[brand_new_say]" (.sayData (some "brand_new_say"))]) ∧
    (handledAsks.contains "brand_new_ask" = false ∧
      transformMessageEvent genA 3 "t"
        { ts := 2, type := "ask", ask := some "brand_new_ask" } =
        some [fallbackTextEvent genA 3 "t" "[brand_new_ask]"
          (.askDataMsg (some "brand_new_ask") none)]) :=
  ⟨⟨rfl, transform_category_tables.1 genA 3 "t"
      { ts := 2, type := "say", say := some "checkpoint_saved" } "checkpoint_saved"
      rfl rfl rfl (by decide)⟩,
   ⟨rfl, transform_category_tables.2.1 genA 3 "t"
      { ts := 2, type := "say", say := some "brand_new_say" } "brand_new_say"
      rfl rfl rfl (by decide)⟩,
   ⟨rfl, transform_category_tables.2.2 genA 3 "t"
      { ts := 2, type := "ask", ask := some "brand_new_ask" } "brand_new_ask"
      rfl rfl rfl (by decide)⟩⟩

/-- C7: a tool-category ask message whose serialized payload carries
inline result content yields a `functionCall` part and a
`functionResponse` part sharing one correlation id derived from the
message timestamp; the correlation ids are independent of the event-id
generator and clock, hence identical across repeated transformation of
a byte-identical message. -/
theorem toolPair_correlation (gen gen2 : Nat → String) (now now2 : Nat)
    (taskId : String) (msg : ClineMessage) (s : String) (td : JVal)
    (hp : truthyB msg.partialFlag = false) (hty : msg.type = "ask")
    (hask : msg.ask = some "tool") (htext : msg.text = some s)
    (hne : s.isEmpty = false) (hparse : parseJson s = .ok td)
    (hc : jget td "content" ≠ .undefVal) :
    transformMessageEvent gen now taskId msg =
      some (toolPairEvents gen now taskId msg.ts td) ∧
    eventCorrelationIds (toolPairEvents gen now taskId msg.ts td) =
      [[some (Nat.repr msg.ts)], [some (Nat.repr msg.ts)]] ∧
    (transformMessageEvent gen now taskId msg).map eventCorrelationIds =
      (transformMessageEvent gen2 now2 taskId msg).map eventCorrelationIds := by
  have hrun : ∀ (g : Nat → String) (n : Nat),
      transformMessageEvent g n taskId msg = some (toolPairEvents g n taskId msg.ts td) := by
    intro g n
    have hout : transformAskMessage msg =
        { content := some [{ role := "model"
                             parts := [.functionCall { name := jget td "tool"
                                                       args := jrest td ["tool", "content"]
                                                       id := some (Nat.repr msg.ts) }] },
                           { role := "user"
                             parts := [.functionResponse { name := jget td "tool"
                                                           response := .obj [("content", jget td "content")]
                                                           id := some (Nat.repr msg.ts) }] }]
          data := some (.askData (some "tool")) } := by
      unfold transformAskMessage
      cases h : jget td "content" with
      | undefVal => exact absurd h hc
      | null => simp [hask, htext, hne, hparse, h]
      | bool b => simp [hask, htext, hne, hparse, h]
      | num n2 => simp [hask, htext, hne, hparse, h]
      | str s2 => simp [hask, htext, hne, hparse, h]
      | arr a => simp [hask, htext, hne, hparse, h]
      | obj o => simp [hask, htext, hne, hparse, h]
    simp [transformMessageEvent, transformMessageEventBody, messageToGenAIContent, hty, hout, hp,
      mkMessageEvents, toolPairEvents, List.enum, List.enumFrom]
  refine ⟨hrun gen now, rfl, ?_⟩
  rw [hrun gen now, hrun gen2 now2]
  simp [toolPairEvents, eventCorrelationIds, partCorrelationId]

/-- Witness for C7 at a concrete tool message carrying inline result
content, evaluated under two different event-id generators and clocks. -/
theorem toolPair_correlation_witness :
    parseJson "\x7b\"tool\":\"readFile\",\"path\":\"a.ts\",\"content\":\"data\"\x7d" =
      .ok (.obj [("tool", .str "readFile"), ("path", .str "a.ts"), ("content", .str "data")]) ∧
    (transformMessageEvent genA 7 "t"
        { ts := 1234, type := "ask", ask := some "tool",
          text := some "\x7b\"tool\":\"readFile\",\"path\":\"a.ts\",\"content\":\"data\"\x7d" } =
      some (toolPairEvents genA 7 "t" 1234
        (.obj [("tool", .str "readFile"), ("path", .str "a.ts"), ("content", .str "data")])) ∧
    eventCorrelationIds (toolPairEvents genA 7 "t" 1234
        (.obj [("tool", .str "readFile"), ("path", .str "a.ts"), ("content", .str "data")])) =
      [[some "1234"], [some "1234"]] ∧
    (transformMessageEvent genA 7 "t"
        { ts := 1234, type := "ask", ask := some "tool",
          text := some "\x7b\"tool\":\"readFile\",\"path\":\"a.ts\",\"content\":\"data\"\x7d" }).map
        eventCorrelationIds =
      (transformMessageEvent genB 8 "t"
        { ts := 1234, type := "ask", ask := some "tool",
          text := some "\x7b\"tool\":\"readFile\",\"path\":\"a.ts\",\"content\":\"data\"\x7d" }).map
        eventCorrelationIds) :=
  ⟨rfl, toolPair_correlation genA genB 7 8 "t"
    { ts := 1234, type := "ask", ask := some "tool",
      text := some "\x7b\"tool\":\"readFile\",\"path\":\"a.ts\",\"content\":\"data\"\x7d" }
    "\x7b\"tool\":\"readFile\",\"path\":\"a.ts\",\"content\":\"data\"\x7d"
    (.obj [("tool", .str "readFile"), ("path", .str "a.ts"), ("content", .str "data")])
    rfl rfl rfl rfl rfl rfl (fun h => JVal.noConfusion h)⟩

/-- Unfolding: a free port binds at once. -/
theorem tryPort_listening (env : Nat → BindResult) (r : PortRange) (p : Nat)
    (h : env p = .listening) : tryPort env r p = .ok p := by
  rw [tryPort.eq_def, h]

/-- Unfolding: a conflict below the range maximum retries the next
port. -/
theorem tryPort_inuse_retry (env : Nat → BindResult) (r : PortRange) (p : Nat)
    (h : env p = .addrInUse) (hlt : p < r.max) :
    tryPort env r p = tryPort env r (p + 1) := by
  rw [tryPort.eq_def, h]
  simp [hlt]

/-- Unfolding: a conflict at or above the range maximum exhausts the
range. -/
theorem tryPort_inuse_end (env : Nat → BindResult) (r : PortRange) (p : Nat)
    (h : env p = .addrInUse) (hge : ¬ p < r.max) :
    tryPort env r p = .noPortsErr p := by
  rw [tryPort.eq_def, h]
  simp [hge]

/-- Unfolding: a non-conflict bind error rejects at once. -/
theorem tryPort_other (env : Nat → BindResult) (r : PortRange) (p : Nat) (e : String)
    (h : env p = .otherErr e) : tryPort env r p = .err e := by
  rw [tryPort.eq_def, h]

/-- The probing loop reaches the first free port when every port before
it conflicts. -/
theorem tryPort_finds_first (env : Nat → BindResult) (r : PortRange) :
    ∀ (n p f : Nat), p + n = f → f ≤ r.max →
      (∀ q, p ≤ q → q < f → env q = .addrInUse) → env f = .listening →
      tryPort env r p = .ok f := by
  intro n
  induction n with
  | zero =>
    intro p f hpf hfm hocc hf
    rw [Nat.add_zero] at hpf
    subst hpf
    exact tryPort_listening env r p hf
  | succ k ih =>
    intro p f hpf hfm hocc hf
    have hplt : p < f := by omega
    have hlt : p < r.max := by omega
    rw [tryPort_inuse_retry env r p (hocc p le_rfl hplt) hlt]
    exact ih (p + 1) f (by omega) hfm (fun q h1 h2 => hocc q (by omega) h2) hf

/-- The probing loop exhausts the range when every port through the
range maximum conflicts. -/
theorem tryPort_exhausts (env : Nat → BindResult) (r : PortRange) :
    ∀ (n p : Nat), p + n = r.max →
      (∀ q, p ≤ q → q ≤ r.max → env q = .addrInUse) →
      tryPort env r p = .noPortsErr r.max := by
  intro n
  induction n with
  | zero =>
    intro p hp hocc
    have hpm : p = r.max := by omega
    have h := tryPort_inuse_end env r p (hocc p le_rfl (by omega)) (by omega)
    rw [h, hpm]
  | succ k ih =>
    intro p hp hocc
    have hlt : p < r.max := by omega
    rw [tryPort_inuse_retry env r p (hocc p le_rfl (by omega)) hlt]
    exact ih (p + 1) (by omega) (fun q h1 h2 => hocc q (by omega) h2)

/-- The probing loop stops at the first non-conflict error. -/
theorem tryPort_stops_on_other (env : Nat → BindResult) (r : PortRange) :
    ∀ (n p j : Nat) (e : String), p + n = j → j ≤ r.max →
      (∀ q, p ≤ q → q < j → env q = .addrInUse) → env j = .otherErr e →
      tryPort env r p = .err e := by
  intro n
  induction n with
  | zero =>
    intro p j e hpj hjm hocc hj
    rw [Nat.add_zero] at hpj
    subst hpj
    exact tryPort_other env r p e hj
  | succ k ih =>
    intro p j e hpj hjm hocc hj
    have hplt : p < j := by omega
    have hlt : p < r.max := by omega
    rw [tryPort_inuse_retry env r p (hocc p le_rfl hplt) hlt]
    exact ih (p + 1) j e (by omega) hjm (fun q h1 h2 => hocc q (by omega) h2) hj

/-- C3: with the preferred port occupied and a configured range
containing it, `start()` binds the first free port at or above the
preferred one (retrying on each conflict below the range maximum) and
records it; with every port of the range occupied it fails with the
port-exhaustion error leaving the state — in particular the listener
binding — unchanged; a non-conflict bind error fails immediately. -/
theorem start_port_acquisition :
    (∀ (env : Nat → BindResult) (st : ServerState) (r : PortRange) (f : Nat),
      st.config.portRange = some r → r.min ≤ st.config.port → st.config.port < r.max →
      env st.config.port = .addrInUse → st.config.port ≤ f → f ≤ r.max →
      (∀ q, st.config.port ≤ q → q < f → env q = .addrInUse) → env f = .listening →
      start env st =
        ({ st with config := { st.config with port := f }, listening := some f }, .ok f)) ∧
    (∀ (env : Nat → BindResult) (st : ServerState) (r : PortRange),
      st.config.portRange = some r → r.min ≤ st.config.port → st.config.port < r.max →
      (∀ q, st.config.port ≤ q → q ≤ r.max → env q = .addrInUse) →
      start env st = (st, .noPortsErr r.max)) ∧
    (∀ (env : Nat → BindResult) (st : ServerState) (r : PortRange) (j : Nat) (e : String),
      st.config.portRange = some r → st.config.port ≤ j → j ≤ r.max →
      (∀ q, st.config.port ≤ q → q < j → env q = .addrInUse) → env j = .otherErr e →
      start env st = (st, .err e)) := by
  refine ⟨?_, ?_, ?_⟩
  · intro env st r f hpr hmin hplt hbusy hpf hfm hocc hf
    have h := tryPort_finds_first env r (f - st.config.port) st.config.port f (by omega) hfm hocc hf
    simp [start, hpr, h]
  · intro env st r hpr hmin hplt hocc
    have h := tryPort_exhausts env r (r.max - st.config.port) st.config.port (by omega) hocc
    simp [start, hpr, h]
  · intro env st r j e hpr hpj hjm hocc hj
    have h := tryPort_stops_on_other env r (j - st.config.port) st.config.port j e (by omega) hjm hocc hj
    simp [start, hpr, h]

/-- Witness for C3: the default server (preferred 3001, range
3001-3100) against the three concrete bind environments. -/
theorem start_port_acquisition_witness :
    start envFirstFree serverW =
      ({ serverW with
          config := { serverW.config with port := 3003 }
          listening := some 3003 }, .ok 3003) ∧
    start envAllBusy serverW = (serverW, .noPortsErr 3100) ∧
    start envAccessDenied serverW = (serverW, .err "EACCES") :=
  ⟨start_port_acquisition.1 envFirstFree serverW { min := 3001, max := 3100 } 3003
      rfl (by decide) (by decide) rfl (by decide) (by decide)
      (fun q h1 h2 => by
        have hq : ¬ q = 3003 := by omega
        simp [envFirstFree, hq]) rfl,
   start_port_acquisition.2.1 envAllBusy serverW { min := 3001, max := 3100 }
      rfl (by decide) (by decide) (fun q _ _ => rfl),
   start_port_acquisition.2.2 envAccessDenied serverW { min := 3001, max := 3100 } 3002 "EACCES"
      rfl (by decide) (by decide)
      (fun q h1 h2 => by
        have hq : ¬ q = 3002 := by omega
        simp [envAccessDenied, hq]) rfl⟩

/-- Broadcasting over healthy entries writes one frame per entry and
leaves the registry untouched. -/
theorem broadcastLoop_all_ok (ev : StreamEvent) :
    ∀ (l reg : List (String × StreamClientConnection)),
      (∀ p ∈ l, okOpen p.2) →
      broadcastLoop ev reg l = (l.map (fun p => (p.1, OutFrame.ev ev)), reg) := by
  intro l
  induction l with
  | nil => intro reg _; rfl
  | cons x xs ih =>
    obtain ⟨cid, conn⟩ := x
    intro reg hall
    obtain ⟨w, hw, hrs, hst⟩ := hall (cid, conn) (List.mem_cons_self _ _)
    have hw2 : conn.websocket = some w := hw
    have hrest := ih reg (fun p hp => hall p (List.mem_cons_of_mem _ hp))
    simp [broadcastLoop, hw2, sendToWebSocketClient, hrs, hst, hrest]

/-- Broadcasting over a snapshot whose one throwing entry sits between
healthy segments erases exactly that entry's key from the registry and
writes one frame per healthy entry. -/
theorem broadcastLoop_one_bad (ev : StreamEvent) (k : String)
    (ck : StreamClientConnection) (w : WS)
    (hw : ck.websocket = some w) (hrs : w.readyState = wsOPEN) (hst : w.sendThrows = true) :
    ∀ (l₁ l₂ reg : List (String × StreamClientConnection)),
      (∀ p ∈ l₁, okOpen p.2) → (∀ p ∈ l₂, okOpen p.2) →
      broadcastLoop ev reg (l₁ ++ (k, ck) :: l₂) =
        ((l₁ ++ l₂).map (fun p => (p.1, OutFrame.ev ev)),
         reg.eraseP (fun p => p.1 == k)) := by
  intro l₁
  induction l₁ with
  | nil =>
    intro l₂ reg h1 h2
    have hall := broadcastLoop_all_ok ev l₂ (reg.eraseP (fun p => p.1 == k)) h2
    simp [broadcastLoop, hw, sendToWebSocketClient, hrs, hst, hall]
  | cons x xs ih =>
    obtain ⟨cid, conn⟩ := x
    intro l₂ reg h1 h2
    obtain ⟨w2, hw2, hrs2, hst2⟩ := h1 (cid, conn) (List.mem_cons_self _ _)
    have hw3 : conn.websocket = some w2 := hw2
    have hrest := ih l₂ reg (fun p hp => h1 p (List.mem_cons_of_mem _ hp)) h2
    simp [broadcastLoop, hw3, sendToWebSocketClient, hrs2, hst2, hrest]

/-- C4: with N registered connections of which exactly one (K) has a
throwing transport write, one `broadcastEvent` call leaves the registry
with exactly the other N-1 connections (K removed, order preserved) and
writes exactly one frame to each of them. -/
theorem broadcast_self_healing (st : ServerState) (ev : StreamEvent)
    (l₁ l₂ : List (String × StreamClientConnection)) (k : String)
    (ck : StreamClientConnection) (w : WS)
    (hconn : st.connections = l₁ ++ (k, ck) :: l₂)
    (hw : ck.websocket = some w) (hrs : w.readyState = wsOPEN) (hst : w.sendThrows = true)
    (h1 : ∀ p ∈ l₁, okOpen p.2) (h2 : ∀ p ∈ l₂, okOpen p.2)
    (hk : ∀ p ∈ l₁, p.1 ≠ k) :
    (broadcastEvent st ev).1.connections = l₁ ++ l₂ ∧
    (broadcastEvent st ev).1.connections.length + 1 = st.connections.length ∧
    (broadcastEvent st ev).2 = (l₁ ++ l₂).map (fun p => (p.1, OutFrame.ev ev)) := by
  have hloop := broadcastLoop_one_bad ev k ck w hw hrs hst l₁ l₂ (l₁ ++ (k, ck) :: l₂) h1 h2
  have herase : (l₁ ++ (k, ck) :: l₂).eraseP (fun p => p.1 == k) = l₁ ++ l₂ := by
    rw [List.eraseP_append_right _ (fun b hb => by simp [hk b hb])]
    simp
  have hbe : broadcastEvent st ev =
      ({ st with connections := l₁ ++ l₂ },
       (l₁ ++ l₂).map (fun p => (p.1, OutFrame.ev ev))) := by
    unfold broadcastEvent
    rw [hconn, hloop, herase]
  refine ⟨by rw [hbe], ?_, by rw [hbe]⟩
  rw [hbe, hconn]
  simp [List.length_append]
  omega

/-- Witness for C4: three connections with the middle one throwing; the
broadcast removes it and delivers one frame to each of the other two. -/
theorem broadcast_self_healing_witness :
    (broadcastEvent stBroadcast evW).1.connections = [("c1", connRec1), ("c3", connRec3)] ∧
    (broadcastEvent stBroadcast evW).1.connections.length + 1 =
      stBroadcast.connections.length ∧
    (broadcastEvent stBroadcast evW).2 = [("c1", .ev evW), ("c3", .ev evW)] :=
  broadcast_self_healing stBroadcast evW [("c1", connRec1)] [("c3", connRec3)] "c2"
    connRecK wsOpenBad rfl rfl rfl rfl
    (fun p hp => by
      simp only [List.mem_singleton] at hp
      subst hp
      exact ⟨wsOpenOk, rfl, rfl, rfl⟩)
    (fun p hp => by
      simp only [List.mem_singleton] at hp
      subst hp
      exact ⟨wsOpenOk, rfl, rfl, rfl⟩)
    (fun p hp => by
      simp only [List.mem_singleton] at hp
      subst hp
      decide)

/-- `broadcastEvent` in terms of the loop's components. -/
theorem broadcastEvent_eq (st : ServerState) (ev : StreamEvent) :
    broadcastEvent st ev =
      ({ st with connections := (broadcastLoop ev st.connections st.connections).2 },
       (broadcastLoop ev st.connections st.connections).1) := by
  unfold broadcastEvent
  cases h : broadcastLoop ev st.connections st.connections with
  | mk fs reg => simp [h]

/-- In a registry with pairwise-distinct keys, a key determines its
record. -/
theorem keys_nodup_unique {α : Type} :
    ∀ (l : List (String × α)), (l.map Prod.fst).Nodup →
      ∀ (k : String) (a b : α), (k, a) ∈ l → (k, b) ∈ l → a = b := by
  intro l
  induction l with
  | nil =>
    intro _ k a b ha _
    exact absurd ha (List.not_mem_nil _)
  | cons x xs ih =>
    intro hnd k a b ha hb
    rw [List.map_cons, List.nodup_cons] at hnd
    rcases List.mem_cons.mp ha with ha1 | ha2
    · rcases List.mem_cons.mp hb with hb1 | hb2
      · rw [← ha1] at hb1
        injection hb1 with h1 h2
        exact h2.symm
      · exfalso
        apply hnd.1
        rw [← ha1]
        have hkb : (k, b).1 ∈ List.map Prod.fst xs := List.mem_map_of_mem Prod.fst hb2
        exact hkb
    · rcases List.mem_cons.mp hb with hb1 | hb2
      · exfalso
        apply hnd.1
        rw [← hb1]
        have hka : (k, a).1 ∈ List.map Prod.fst xs := List.mem_map_of_mem Prod.fst ha2
        exact hka
      · exact ih hnd.2 k a b ha2 hb2

/-- An entry whose every snapshot occurrence is silent survives the
broadcast loop and receives no frame. -/
theorem broadcastLoop_silent_key (ev : StreamEvent) (k : String)
    (c : StreamClientConnection) :
    ∀ (snap reg : List (String × StreamClientConnection)),
      (∀ p ∈ snap, p.1 = k → silentConn p.2) → (k, c) ∈ reg →
      ((k, c) ∈ (broadcastLoop ev reg snap).2 ∧
       ∀ f, (k, f) ∉ (broadcastLoop ev reg snap).1) := by
  intro snap
  induction snap with
  | nil =>
    intro reg _ hreg
    exact ⟨hreg, fun f h => absurd h (List.not_mem_nil _)⟩
  | cons x xs ih =>
    obtain ⟨cid, conn⟩ := x
    intro reg hsil hreg
    have htail : ∀ p ∈ xs, p.1 = k → silentConn p.2 :=
      fun p hp h => hsil p (List.mem_cons_of_mem _ hp) h
    by_cases hck : cid = k
    · have hs : silentConn conn := hsil (cid, conn) (List.mem_cons_self _ _) hck
      rcases hs with hnone | ⟨w, hw, hro⟩
      · have hw2 : conn.websocket = none := hnone
        have hrec := ih reg htail hreg
        simpa [broadcastLoop, hw2] using hrec
      · have hw2 : conn.websocket = some w := hw
        have hsend : sendToWebSocketClient w (.ev ev) = .ok [] := by
          simp [sendToWebSocketClient, hro]
        have hrec := ih reg htail hreg
        simpa [broadcastLoop, hw2, hsend] using hrec
    · cases hwv : conn.websocket with
      | none =>
        have hrec := ih reg htail hreg
        simpa [broadcastLoop, hwv] using hrec
      | some w =>
        cases hsend : sendToWebSocketClient w (.ev ev) with
        | ok fs =>
          obtain ⟨hmem, hfr⟩ := ih reg htail hreg
          refine ⟨by simpa [broadcastLoop, hwv, hsend] using hmem, ?_⟩
          intro f hf
          simp only [broadcastLoop, hwv, hsend, List.mem_append, List.mem_map] at hf
          rcases hf with ⟨a, _, heq⟩ | hf2
          · injection heq with h1 h2
            exact hck h1
          · exact hfr f (by simpa using hf2)
        | error e =>
          have hreg2 : (k, c) ∈ reg.eraseP (fun p => p.1 == cid) := by
            rw [List.mem_eraseP_of_neg]
            · exact hreg
            · simp only [beq_iff_eq]
              exact fun h => hck h.symm
          obtain ⟨hmem, hfr⟩ := ih (reg.eraseP (fun p => p.1 == cid)) htail hreg2
          refine ⟨by simpa [broadcastLoop, hwv, hsend] using hmem, ?_⟩
          intro f hf
          apply hfr f
          simpa [broadcastLoop, hwv, hsend] using hf

/-- C10: a registered connection whose websocket is present but not
`OPEN` receives nothing from `broadcastEvent` and remains registered —
only a throwing write removes a connection. -/
theorem broadcast_keeps_non_open (st : ServerState) (ev : StreamEvent)
    (k : String) (c : StreamClientConnection) (w : WS)
    (hmem : (k, c) ∈ st.connections) (hw : c.websocket = some w)
    (hro : w.readyState ≠ wsOPEN)
    (hnd : (st.connections.map Prod.fst).Nodup) :
    (k, c) ∈ (broadcastEvent st ev).1.connections ∧
    ∀ f, (k, f) ∉ (broadcastEvent st ev).2 := by
  have hsil : ∀ p ∈ st.connections, p.1 = k → silentConn p.2 := by
    intro p hp hpk
    have hpmem : (k, p.2) ∈ st.connections := by
      rw [← hpk]
      exact hp
    have hpc : p.2 = c := keys_nodup_unique st.connections hnd k p.2 c hpmem hmem
    rw [hpc]
    exact Or.inr ⟨w, hw, hro⟩
  obtain ⟨h1, h2⟩ := broadcastLoop_silent_key ev k c st.connections st.connections hsil hmem
  rw [broadcastEvent_eq]
  exact ⟨h1, h2⟩

/-- Witness for C10: a healthy and a closed connection; the closed one
stays registered and the single frame goes to the healthy one. -/
theorem broadcast_keeps_non_open_witness :
    (("c4", connRecD) ∈ (broadcastEvent stHalfDead evW).1.connections) ∧
    (broadcastEvent stHalfDead evW).2 = [("c1", .ev evW)] :=
  ⟨(broadcast_keeps_non_open stHalfDead evW "c4" connRecD wsClosed
      (by simp [stHalfDead]) rfl (by decide) (by decide)).1, rfl⟩

/-- C5: a well-formed `taskCommand` frame from a connection whose socket
is healthy yields, without any escaping exception: exactly one
`taskCommandAck` frame back to that connection when the registered
handler succeeds; exactly one `error` frame back to that connection when
no handler is registered or the handler rejects.  In each case the frame
log targets only the originating connection. -/
theorem command_round_trip (st : ServerState) (connId : String) (msg : JVal)
    (cn d : JVal) (now : Nat) (conn : StreamClientConnection) (w : WS)
    (hty : jget msg "type" = .str "taskCommand")
    (hcn : jget msg "commandName" = cn) (hd : jget msg "data" = d)
    (hconn : connGet st connId = some conn) (hw : conn.websocket = some w)
    (hrs : w.readyState = wsOPEN) (hst : w.sendThrows = false) :
    (st.taskCommandHandler = none →
      handleClientMessage st connId msg now =
        .ok [(connId, .err "Task command handler not available" now)]) ∧
    (∀ h, st.taskCommandHandler = some h → h cn d = .ok () →
      handleClientMessage st connId msg now = .ok [(connId, .ack cn now)]) ∧
    (∀ h e, st.taskCommandHandler = some h → h cn d = .error e →
      handleClientMessage st connId msg now =
        .ok [(connId, .err ("Failed to process command: " ++ e) now)]) := by
  refine ⟨?_, ?_, ?_⟩
  · intro hh
    simp [handleClientMessage, hty, handleTaskCommand, hh, sendErrorToClient, hconn, hw,
      sendToWebSocketClient, hrs, hst, Except.map]
  · intro h hh hok
    simp [handleClientMessage, hty, hcn, hd, handleTaskCommand, hh, hok, sendAckToClient,
      hconn, hw, sendToWebSocketClient, hrs, hst, Except.map]
  · intro h e hh herr
    simp [handleClientMessage, hty, hcn, hd, handleTaskCommand, hh, herr, sendErrorToClient,
      hconn, hw, sendToWebSocketClient, hrs, hst, Except.map]

/-- Witness for C5: a concrete well-formed frame handled against a
missing handler, a succeeding handler, and a rejecting handler. -/
theorem command_round_trip_witness :
    handleClientMessage stCmdNone "c1" cmdMsg 9 =
      .ok [("c1", .err "Task command handler not available" 9)] ∧
    handleClientMessage stCmdOk "c1" cmdMsg 9 =
      .ok [("c1", .ack (.str "StartNewTask") 9)] ∧
    handleClientMessage stCmdFail "c1" cmdMsg 9 =
      .ok [("c1", .err "Failed to process command: boom" 9)] :=
  ⟨(command_round_trip stCmdNone "c1" cmdMsg (.str "StartNewTask") .null 9 connRec1 wsOpenOk
      rfl rfl rfl rfl rfl rfl rfl).1 rfl,
   (command_round_trip stCmdOk "c1" cmdMsg (.str "StartNewTask") .null 9 connRec1 wsOpenOk
      rfl rfl rfl rfl rfl rfl rfl).2.1 okHandler rfl rfl,
   (command_round_trip stCmdFail "c1" cmdMsg (.str "StartNewTask") .null 9 connRec1 wsOpenOk
      rfl rfl rfl rfl rfl rfl rfl).2.2 failHandler "boom" rfl rfl⟩

/-- C8 counterexample: a freshly constructed server has no listener
bound (start() has not succeeded), yet its heartbeat timer is already
active — `setupHeartbeat` runs in the constructor — and a timer firing
does broadcast a heartbeat event. -/
theorem heartbeat_before_start_counterexample :
    (mkStreamingServer {}).listening = none ∧
    (mkStreamingServer {}).heartbeatActive = true ∧
    (heartbeatTick genA 11 (mkStreamingServer {})).2.2 = true ∧
    (heartbeatEvent genA 11).type = some "heartbeat" :=
  ⟨rfl, rfl, rfl, rfl⟩

/-- C8 (amended): the heartbeat timer is activated by the constructor —
before `start()` — and deactivated by `stop()`; a timer firing
broadcasts a heartbeat event exactly while the timer is active, and
`start()` does not touch the timer. -/
theorem heartbeat_timer_lifecycle :
    (∀ cfg, (mkStreamingServer cfg).heartbeatActive = true ∧
      (mkStreamingServer cfg).listening = none) ∧
    (∀ (gen : Nat → String) (now : Nat) (st : ServerState), st.heartbeatActive = true →
      (heartbeatTick gen now st).2.2 = true ∧
      (heartbeatTick gen now st).2.1 = (broadcastEvent st (heartbeatEvent gen now)).2 ∧
      (heartbeatEvent gen now).type = some "heartbeat" ∧
      (heartbeatEvent gen now).data = some (.heartbeatData now)) ∧
    (∀ (gen : Nat → String) (now : Nat) (st : ServerState), st.heartbeatActive = false →
      heartbeatTick gen now st = (st, [], false)) ∧
    (∀ st, (stop st).heartbeatActive = false) ∧
    (∀ (env : Nat → BindResult) (st : ServerState),
      (start env st).1.heartbeatActive = st.heartbeatActive) := by
  refine ⟨fun cfg => ⟨rfl, rfl⟩, ?_, ?_, fun st => rfl, ?_⟩
  · intro gen now st h
    refine ⟨?_, ?_, rfl, rfl⟩
    · rw [heartbeatTick, h]
      simp [broadcastEvent_eq]
    · rw [heartbeatTick, h]
      simp [broadcastEvent_eq]
  · intro gen now st h
    rw [heartbeatTick, h]
    simp
  · intro env st
    unfold start
    dsimp only
    split <;> rfl

/-- Witness for C8 (amended) at concrete inputs: an active fresh server
ticks a heartbeat; a stopped server does not. -/
theorem heartbeat_timer_lifecycle_witness :
    (mkStreamingServer {}).heartbeatActive = true ∧
    (heartbeatTick genA 11 serverW).2.2 = true ∧
    heartbeatTick genA 12 (stop serverW) = (stop serverW, [], false) ∧
    (stop serverW).heartbeatActive = false :=
  ⟨(heartbeat_timer_lifecycle.1 {}).1,
   (heartbeat_timer_lifecycle.2.1 genA 11 serverW rfl).1,
   heartbeat_timer_lifecycle.2.2.1 genA 12 (stop serverW) rfl,
   heartbeat_timer_lifecycle.2.2.2.1 serverW⟩
